import Mathlib

/-!
Shallow embedding of the deterministic game-state engine of the AlmajilasGame
repository: the seeded RNG (`rng.ts`), tile generation (`game-state.ts`), and the
turn state machine (`TurnMachine` in `trivia.ts`).

Modelling conventions:
* JS numbers holding integer values are `ℤ`; the exact value of `seed / 233280`
  is the rational `mkRat seed 233280`.
* JS `%` on integers is the truncated remainder `Int.tmod` (sign of the dividend).
* `Math.floor(u * k)` for an exact rational `u` and integer `k` is `jsFloorMul u k`
  (proved equal to `⌊u * k⌋` below).
* A JS value that may be `undefined` is an `Option`; `none` on a `Player.points`
  models `NaN` (which arises only from adding `undefined`, reachable only with a
  negative RNG seed), and `jsAdd` propagates it like JS addition does.
* A JS array is a `JSArray`: its indexed elements plus the own-properties created
  by out-of-range index writes (Fisher-Yates with a negative seed writes at
  negative indices; such writes do not change the indexed elements but are found
  again by later reads at the same index).
-/

def TILE_COUNT : ℕ := 50

def MAX_TURNS : ℤ := 12

def DICE_MIN : ℤ := 1

def DICE_MAX : ℤ := 6

def GREEN_TILE_COUNT : ℕ := 20

def RED_TILE_COUNT : ℕ := 15

def YELLOW_TILE_COUNT : ℕ := 10

def BLUE_TILE_COUNT : ℕ := 5

def TILE_REWARDS_GREEN : ℤ := 3

def TILE_REWARDS_RED : ℤ := -3

def TILE_REWARDS_YELLOW_OPTIONS : List ℤ := [5, 2, -2, -5]

def MINIGAME_MAX_POINTS : ℤ := 10

inductive TileType
  | green
  | red
  | yellow
  | blue
deriving DecidableEq, Repr

inductive TurnState
  | TURN_START
  | ROLL_DICE
  | MOVE
  | RESOLVE_TILE
  | OPTIONAL_MINIGAME
  | END_TURN
  | GAME_END
deriving DecidableEq, Repr

def TurnState.name : TurnState → String
  | TurnState.TURN_START => "TURN_START"
  | TurnState.ROLL_DICE => "ROLL_DICE"
  | TurnState.MOVE => "MOVE"
  | TurnState.RESOLVE_TILE => "RESOLVE_TILE"
  | TurnState.OPTIONAL_MINIGAME => "OPTIONAL_MINIGAME"
  | TurnState.END_TURN => "END_TURN"
  | TurnState.GAME_END => "GAME_END"

/-- JS `Math.floor(u * k)` for the exact rational `u` and the integer `k`
(`u.den` is positive, so integer division by it is floor division). -/
def jsFloorMul (u : ℚ) (k : ℤ) : ℤ := u.num * k / (u.den : ℤ)

/-- `RNG.random()`: `this.seed = (this.seed * 9301 + 49297) % 233280; return this.seed / 233280`.
Returns the new seed together with the returned value. JS `%` is the truncated
remainder, so a negative seed yields a negative result. -/
def RNG.random (seed : ℤ) : ℤ × ℚ :=
  let s := Int.tmod (seed * 9301 + 49297) 233280
  (s, mkRat s 233280)

/-- `RNG.randomInt(min, max)`: `Math.floor(this.random() * (max - min + 1)) + min`. -/
def RNG.randomInt (seed lo hi : ℤ) : ℤ × ℤ :=
  let r := RNG.random seed
  (r.1, jsFloorMul r.2 (hi - lo + 1) + lo)

/-- `RNG.pick(array)`: `array[this.randomInt(0, array.length - 1)]`.
A JS out-of-range index read yields `undefined`, modelled as `none`. -/
def RNG.pick {α : Type} (seed : ℤ) (l : List α) : ℤ × Option α :=
  let r := RNG.randomInt seed 0 ((l.length : ℤ) - 1)
  (r.1, if h : 0 ≤ r.2 ∧ r.2.toNat < l.length then some (l.get ⟨r.2.toNat, h.2⟩) else none)

/-- A JS array object: the indexed elements `0 .. length-1` (`none` = a stored
`undefined`) plus the own properties created by writes at other indices.
In `RNG.shuffle` the only out-of-range writes have negative indices (they occur
exactly when the seed is negative), which never change `elems`. -/
structure JSArray (α : Type) where
  elems : List (Option α)
  props : List (ℤ × Option α)
deriving DecidableEq

/-- JS index read: an element if `i` is in range, else the own property if one was
created, else `undefined`. -/
def JSArray.read {α : Type} (a : JSArray α) (i : ℤ) : Option α :=
  if h : 0 ≤ i ∧ i.toNat < a.elems.length then a.elems.get ⟨i.toNat, h.2⟩
  else
    match List.lookup i a.props with
    | some v => v
    | none => none

/-- JS index write: replaces the element if `i` is in range, else records an own
property (the most recent write shadows older ones). -/
def JSArray.write {α : Type} (a : JSArray α) (i : ℤ) (v : Option α) : JSArray α :=
  if 0 ≤ i ∧ i.toNat < a.elems.length then { a with elems := a.elems.set i.toNat v }
  else { a with props := (i, v) :: a.props }

/-- One Fisher-Yates iteration of `RNG.shuffle` at loop index `i`:
`const j = Math.floor(this.random() * (i + 1)); [result[i], result[j]] = [result[j], result[i]]`.
The destructuring assignment reads both positions, then writes `result[i]` and
then `result[j]`. -/
def RNG.shuffleStep {α : Type} (st : ℤ × JSArray α) (i : ℕ) : ℤ × JSArray α :=
  let r := RNG.random st.1
  let j : ℤ := jsFloorMul r.2 ((i : ℤ) + 1)
  let vi := st.2.read (i : ℤ)
  let vj := st.2.read j
  (r.1, (st.2.write (i : ℤ) vj).write j vi)

/-- The loop `for (let i = result.length - 1; i > 0; i--)`: iterates the step at
`i = n, n-1, ..., 1`. -/
def RNG.shuffleGo {α : Type} : ℕ → ℤ × JSArray α → ℤ × JSArray α
  | 0, st => st
  | i + 1, st => RNG.shuffleGo i (RNG.shuffleStep st (i + 1))

/-- `RNG.shuffle(array)`: copies the input (`const result = [...array]`), runs the
Fisher-Yates loop, and returns the result array. The returned list is the result
array's indexed elements; the input list is untouched (the embedding is pure, as
is the source, which mutates only the copy). -/
def RNG.shuffle {α : Type} (seed : ℤ) (array : List (Option α)) : ℤ × List (Option α) :=
  let r := RNG.shuffleGo (array.length - 1) (seed, ⟨array, []⟩)
  (r.1, r.2.elems)

/-- A track tile. `type` is an `Option` because a JS shuffle run with a negative
seed can leave `undefined` in the shuffled list (see `RNG.shuffle`). -/
structure Tile where
  type : Option TileType
  index : ℕ
deriving DecidableEq, Repr

/-- The flat type list built by the four push loops of `generateTiles`:
20 green, then 15 red, then 10 yellow, then 5 blue. -/
def tileTypeBag : List (Option TileType) :=
  List.replicate GREEN_TILE_COUNT (some TileType.green) ++
  List.replicate RED_TILE_COUNT (some TileType.red) ++
  List.replicate YELLOW_TILE_COUNT (some TileType.yellow) ++
  List.replicate BLUE_TILE_COUNT (some TileType.blue)

/-- `generateTiles(rng)`: builds the flat type list, shuffles it, and assigns
sequential indices `0 .. TILE_COUNT-1`. Returns the advanced RNG seed together
with the tiles. -/
def generateTiles (seed : ℤ) : ℤ × List Tile :=
  let r := RNG.shuffle seed tileTypeBag
  (r.1, (List.range TILE_COUNT).map (fun i => ⟨r.2.getD i none, i⟩))

/-- `getYellowTilePoints(rng)`: `rng.pick(TILE_REWARDS.YELLOW_OPTIONS)`. -/
def getYellowTilePoints (seed : ℤ) : ℤ × Option ℤ :=
  RNG.pick seed TILE_REWARDS_YELLOW_OPTIONS

/-- `getMinigamePoints(correct)`: `correct ? 10 : 0`. -/
def getMinigamePoints (correct : Bool) : ℤ := if correct then 10 else 0

/-- JS `+=` on possibly-NaN numbers: `none` (NaN, or an `undefined` addend)
absorbs. -/
def jsAdd : Option ℤ → Option ℤ → Option ℤ
  | some a, some b => some (a + b)
  | _, _ => none

structure Player where
  id : ℤ
  name : String
  isTeam : Bool
  characterModel : String
  characterName : String
  portrait : String
  color : String
  pawnPosition : ℤ
  points : Option ℤ
deriving DecidableEq, Repr

structure GameState where
  players : List Player
  currentPlayerIndex : ℤ
  turn : ℤ
  tiles : List Tile
  currentState : TurnState
  diceResult : Option ℤ
  pendingPoints : Option ℤ
  minigameScore : Option ℤ
  rng : ℤ
deriving DecidableEq, Repr

/-- `createGameState(seed, players)`: fresh RNG from the seed, generated tiles,
all turn-scoped fields null, state TURN_START. No validation is performed on the
roster. -/
def createGameState (seed : ℤ) (players : List Player) : GameState :=
  let r := generateTiles seed
  { players := players
    currentPlayerIndex := 0
    turn := 1
    tiles := r.2
    currentState := TurnState.TURN_START
    diceResult := none
    pendingPoints := none
    minigameScore := none
    rng := r.1 }

/-- The `TurnMachine` object: its own `state` field plus the referenced game state. -/
structure Machine where
  state : TurnState
  gameState : GameState
deriving DecidableEq, Repr

/-- The `TurnMachine` constructor: `this.state = gameState.currentState`. -/
def mkTurnMachine (gs : GameState) : Machine := ⟨gs.currentState, gs⟩

/-- Result of one `TurnMachine` method call: the machine object after the call
(JS mutates in place, so this is meaningful also when the call throws), the
states passed to the `onStateChange` callback during the call, and the returned
value or the thrown error message. -/
structure StepR (α : Type) where
  m : Machine
  notes : List TurnState
  res : Except String α

def Machine.withGS (m : Machine) (gs : GameState) : Machine := { m with gameState := gs }

/-- `setState`: writes both `this.state` and `gameState.currentState`, then fires
the `onStateChange` callback with the new state. -/
def Machine.setState (m : Machine) (newState : TurnState) : Machine × List TurnState :=
  (⟨newState, { m.gameState with currentState := newState }⟩, [newState])

/-- `forceStateForTesting` (DEV ONLY): writes both state fields, fires no callback. -/
def Machine.forceStateForTesting (m : Machine) (newState : TurnState) : Machine :=
  ⟨newState, { m.gameState with currentState := newState }⟩

/-- `this.gameState.tiles[pos]`: the tile at an integer index, `undefined` (none)
out of range. -/
def Machine.tileAt (m : Machine) (pos : ℤ) : Option Tile :=
  if h : 0 ≤ pos ∧ pos.toNat < m.gameState.tiles.length
  then some (m.gameState.tiles.get ⟨pos.toNat, h.2⟩) else none

/-- `getCurrentPlayer()`: `this.gameState.players[this.gameState.currentPlayerIndex]`,
`undefined` if the index is out of range. -/
def Machine.getCurrentPlayer (m : Machine) : Option Player :=
  let i := m.gameState.currentPlayerIndex
  if h : 0 ≤ i ∧ i.toNat < m.gameState.players.length
  then some (m.gameState.players.get ⟨i.toNat, h.2⟩) else none

/-- `startTurn()`: GAME_END if the turn counter is beyond MAX_TURNS, else TURN_START. -/
def Machine.startTurn (m : Machine) : StepR Unit :=
  if m.gameState.turn > MAX_TURNS then
    let p := m.setState TurnState.GAME_END
    ⟨p.1, p.2, Except.ok ()⟩
  else
    let p := m.setState TurnState.TURN_START
    ⟨p.1, p.2, Except.ok ()⟩

/-- `rollDice()`: legal from TURN_START or ROLL_DICE; one `randomInt(1, 6)` draw,
stored in `diceResult`; transitions to MOVE. -/
def Machine.rollDice (m : Machine) : StepR ℤ :=
  if m.state ≠ TurnState.TURN_START ∧ m.state ≠ TurnState.ROLL_DICE then
    ⟨m, [], Except.error ("Cannot roll dice in state: " ++ m.state.name)⟩
  else
    let r := RNG.randomInt m.gameState.rng DICE_MIN DICE_MAX
    let m1 := m.withGS { m.gameState with rng := r.1, diceResult := some r.2 }
    let p := m1.setState TurnState.MOVE
    ⟨p.1, p.2, Except.ok r.2⟩

/-- `movePawn(moveCallback?)`: legal from MOVE with a non-null dice result; sets the
current player's position to `(pawnPosition + diceResult) % 50` (JS remainder),
invokes the callback (if provided) with the new position, transitions to
RESOLVE_TILE. The result records the callback invocation: `some p` exactly when
the callback was provided, in which case it received `p`. -/
def Machine.movePawn (m : Machine) (cbProvided : Bool) : StepR (Option ℤ) :=
  if m.state ≠ TurnState.MOVE then
    ⟨m, [], Except.error ("Cannot move in state: " ++ m.state.name)⟩
  else
    match m.gameState.diceResult with
    | none => ⟨m, [], Except.error "Cannot move without dice result"⟩
    | some steps =>
      match m.getCurrentPlayer with
      | none => ⟨m, [], Except.error "TypeError"⟩
      | some player =>
        let newPosition := Int.tmod (player.pawnPosition + steps) 50
        let idx := m.gameState.currentPlayerIndex.toNat
        let player1 := { player with pawnPosition := newPosition }
        let m1 := m.withGS { m.gameState with
          players := m.gameState.players.set idx player1 }
        let p := m1.setState TurnState.RESOLVE_TILE
        ⟨p.1, p.2, Except.ok (if cbProvided then some newPosition else none)⟩

/-- `transitionToResolveTile()`: legal from MOVE; just transitions. -/
def Machine.transitionToResolveTile (m : Machine) : StepR Unit :=
  if m.state ≠ TurnState.MOVE then
    ⟨m, [], Except.error ("Cannot transition to RESOLVE_TILE from state: " ++ m.state.name)⟩
  else
    let p := m.setState TurnState.RESOLVE_TILE
    ⟨p.1, p.2, Except.ok ()⟩

/-- `resolveTile()`: legal from RESOLVE_TILE. Reads the current player's tile,
clears `pendingPoints`, then applies the tile effect. A `pendingPoints` of
`none` written in the yellow branch models the JS `undefined` stored when the
pick was out of range (negative seed); it is collapsed onto null, which no
claim distinguishes. A missing tile (position out of range) throws a JS
TypeError after `pendingPoints` was already cleared. -/
def Machine.resolveTile (m : Machine) : StepR Unit :=
  if m.state ≠ TurnState.RESOLVE_TILE then
    ⟨m, [], Except.error ("Cannot resolve tile in state: " ++ m.state.name)⟩
  else
    match m.getCurrentPlayer with
    | none => ⟨m, [], Except.error "TypeError"⟩
    | some player =>
      let currentTile : Option Tile := m.tileAt player.pawnPosition
      let gs1 := { m.gameState with pendingPoints := none }
      let idx := m.gameState.currentPlayerIndex.toNat
      match currentTile with
      | none => ⟨m.withGS gs1, [], Except.error "TypeError"⟩
      | some tile =>
        match tile.type with
        | some TileType.green =>
          let player1 := { player with points := jsAdd player.points (some TILE_REWARDS_GREEN) }
          let gs2 := { gs1 with
            pendingPoints := some TILE_REWARDS_GREEN
            players := gs1.players.set idx player1 }
          let p := (m.withGS gs2).setState TurnState.END_TURN
          ⟨p.1, p.2, Except.ok ()⟩
        | some TileType.red =>
          let player1 := { player with points := jsAdd player.points (some TILE_REWARDS_RED) }
          let gs2 := { gs1 with
            pendingPoints := some TILE_REWARDS_RED
            players := gs1.players.set idx player1 }
          let p := (m.withGS gs2).setState TurnState.END_TURN
          ⟨p.1, p.2, Except.ok ()⟩
        | some TileType.yellow =>
          let r := getYellowTilePoints m.gameState.rng
          let player1 := { player with points := jsAdd player.points r.2 }
          let gs2 := { gs1 with
            rng := r.1
            pendingPoints := r.2
            players := gs1.players.set idx player1 }
          let p := (m.withGS gs2).setState TurnState.END_TURN
          ⟨p.1, p.2, Except.ok ()⟩
        | some TileType.blue =>
          let p := (m.withGS gs1).setState TurnState.OPTIONAL_MINIGAME
          ⟨p.1, p.2, Except.ok ()⟩
        | none =>
          let p := (m.withGS gs1).setState TurnState.END_TURN
          ⟨p.1, p.2, Except.ok ()⟩

/-- `completeMinigame(correct)`: legal from OPTIONAL_MINIGAME. Stores the outcome
(1/0) in `minigameScore`, the points (10/0) in `pendingPoints`, adds them to the
current player's points, transitions to END_TURN. With an empty roster the JS
code would throw a TypeError only after the two game-state writes. -/
def Machine.completeMinigame (m : Machine) (correct : Bool) : StepR Unit :=
  if m.state ≠ TurnState.OPTIONAL_MINIGAME then
    ⟨m, [], Except.error ("Cannot complete minigame in state: " ++ m.state.name)⟩
  else
    let minigamePoints := getMinigamePoints correct
    let gs1 := { m.gameState with
      minigameScore := some (if correct then 1 else 0)
      pendingPoints := some minigamePoints }
    match m.getCurrentPlayer with
    | none => ⟨m.withGS gs1, [], Except.error "TypeError"⟩
    | some player =>
      let idx := m.gameState.currentPlayerIndex.toNat
      let player1 := { player with points := jsAdd player.points (some minigamePoints) }
      let gs2 := { gs1 with players := gs1.players.set idx player1 }
      let p := (m.withGS gs2).setState TurnState.END_TURN
      ⟨p.1, p.2, Except.ok ()⟩

/-- `endTurn()`: legal from END_TURN. Advances `currentPlayerIndex` by
`(i + 1) % players.length` (JS remainder; for an empty roster JS would produce
NaN, a corner no claim exercises), increments `turn` exactly on wrap to 0,
nulls the turn-scoped fields, then transitions to GAME_END or re-enters
`startTurn()`. -/
def Machine.endTurn (m : Machine) : StepR Unit :=
  if m.state ≠ TurnState.END_TURN then
    ⟨m, [], Except.error ("Cannot end turn in state: " ++ m.state.name)⟩
  else
    let numPlayers : ℤ := m.gameState.players.length
    let idx1 := Int.tmod (m.gameState.currentPlayerIndex + 1) numPlayers
    let turn1 := if idx1 = 0 then m.gameState.turn + 1 else m.gameState.turn
    let gs1 := { m.gameState with
      currentPlayerIndex := idx1
      turn := turn1
      diceResult := none
      pendingPoints := none
      minigameScore := none }
    if turn1 > MAX_TURNS then
      let p := (m.withGS gs1).setState TurnState.GAME_END
      ⟨p.1, p.2, Except.ok ()⟩
    else
      let r := (m.withGS gs1).startTurn
      ⟨r.m, r.notes, Except.ok ()⟩

/-- One external operation on the TurnMachine, for replaying fixed call sequences. -/
inductive GameOp
  | startTurn
  | rollDice
  | movePawn (cbProvided : Bool)
  | transitionToResolveTile
  | resolveTile
  | completeMinigame (correct : Bool)
  | endTurn
deriving DecidableEq, Repr

/-- Applies one operation; returns the machine afterwards and the dice value if the
operation was a successful `rollDice`. -/
def applyOp (m : Machine) : GameOp → Machine × Option ℤ
  | GameOp.startTurn => (m.startTurn.m, none)
  | GameOp.rollDice =>
    let r := m.rollDice
    (r.m, match r.res with | Except.ok v => some v | Except.error _ => none)
  | GameOp.movePawn cb => ((m.movePawn cb).m, none)
  | GameOp.transitionToResolveTile => (m.transitionToResolveTile.m, none)
  | GameOp.resolveTile => (m.resolveTile.m, none)
  | GameOp.completeMinigame c => ((m.completeMinigame c).m, none)
  | GameOp.endTurn => (m.endTurn.m, none)

/-- Replays a fixed sequence of operation calls; collects the dice rolls produced. -/
def runOps : List GameOp → Machine → Machine × List ℤ
  | [], m => (m, [])
  | op :: ops, m =>
    let r := applyOp m op
    let rest := runOps ops r.1
    (rest.1, (match r.2 with | some d => [d] | none => []) ++ rest.2)

/-- The observables the determinism claim compares: dice-roll values, the tile
layout, and the final per-player scores and positions. -/
def runObservables (ops : List GameOp) (m : Machine) :
    List ℤ × List (Option TileType) × List (Option ℤ × ℤ) :=
  let r := runOps ops m
  (r.2, r.1.gameState.tiles.map Tile.type,
    r.1.gameState.players.map (fun p => (p.points, p.pawnPosition)))

/-- Successful step extractor: the machine after the call if it did not throw. -/
def stepOk {α : Type} (r : StepR α) : Option Machine :=
  match r.res with
  | Except.ok _ => some r.m
  | Except.error _ => none

/-- Drives one complete turn: roll, move, resolve, complete the minigame (with a
correct answer) when one was triggered, and end the turn. `none` if any call threw. -/
def playTurnE (m : Machine) : Option Machine :=
  (stepOk m.rollDice).bind (fun m1 =>
    (stepOk (m1.movePawn false)).bind (fun m2 =>
      (stepOk m2.resolveTile).bind (fun m3 =>
        (if m3.state = TurnState.OPTIONAL_MINIGAME
          then stepOk (m3.completeMinigame true) else some m3).bind
          (fun m4 => stepOk m4.endTurn))))

/-- Drives `n` complete turns. -/
def playTurnsE : ℕ → Machine → Option Machine
  | 0, m => some m
  | n + 1, m => (playTurnE m).bind (playTurnsE n)

/-- A roster entry with the given id and name, at the start position with 0 points. -/
def samplePlayer (i : ℤ) (nm : String) : Player :=
  ⟨i, nm, false, "", "", "", "", 0, some 0⟩

def sampleRoster : List Player :=
  [samplePlayer 1 "Player 1", samplePlayer 2 "Player 2"]

/-- The two-player machine of the concrete scenarios, seed 42. -/
def sampleMachine : Machine := mkTurnMachine (createGameState 42 sampleRoster)

/-- Counts the tiles of type `t` in a shuffled type list. -/
def countO (l : List (Option TileType)) (t : Option TileType) : ℕ :=
  (l.filter (fun x => decide (x = t))).length

/-- A machine parked in MOVE with a rolled 3, for witnessing the movement claim. -/
def c5WitnessMachine : Machine :=
  { state := TurnState.MOVE
    gameState := { createGameState 42 sampleRoster with
      currentState := TurnState.MOVE
      diceResult := some 3 } }

/-- A machine parked in RESOLVE_TILE (seed 42, player 0 on tile 0), for witnessing
the tile-resolution claim. -/
def c3Machine : Machine :=
  { state := TurnState.RESOLVE_TILE
    gameState := { createGameState 42 sampleRoster with
      currentState := TurnState.RESOLVE_TILE } }

/-- A machine parked in OPTIONAL_MINIGAME, for witnessing the minigame claim. -/
def c3MgMachine : Machine :=
  { state := TurnState.OPTIONAL_MINIGAME
    gameState := { createGameState 42 sampleRoster with
      currentState := TurnState.OPTIONAL_MINIGAME } }

/-! ## Arithmetic facts about the embedded RNG -/

set_option maxRecDepth 100000

lemma jsFloorMul_eq_floor (u : ℚ) (k : ℤ) : jsFloorMul u k = ⌊u * (k : ℚ)⌋ := by
  have h : u * (k : ℚ) = ((u.num * k : ℤ) : ℚ) / ((u.den : ℕ) : ℚ) := by
    push_cast
    rw [mul_div_right_comm, Rat.num_div_den]
  rw [jsFloorMul, h, Rat.floor_intCast_div_natCast]

lemma jsFloorMul_bounds (u : ℚ) (k : ℤ) (h0 : 0 ≤ u) (h1 : u < 1) (hk : 0 < k) :
    0 ≤ jsFloorMul u k ∧ jsFloorMul u k < k := by
  rw [jsFloorMul_eq_floor]
  have hk0 : (0 : ℚ) < (k : ℚ) := by exact_mod_cast hk
  constructor
  · exact Int.floor_nonneg.mpr (mul_nonneg h0 (le_of_lt hk0))
  · exact Int.floor_lt.mpr (by
      calc u * (k : ℚ) < 1 * (k : ℚ) := by exact mul_lt_mul_of_pos_right h1 hk0
      _ = (k : ℚ) := one_mul _)

lemma RNG.random_seed_spec (s : ℤ) (hs : 0 ≤ s) :
    (RNG.random s).1 = (s * 9301 + 49297) % 233280 ∧
    0 ≤ (RNG.random s).1 ∧ (RNG.random s).1 < 233280 := by
  have hx : (0 : ℤ) ≤ s * 9301 + 49297 := by positivity
  have he : (RNG.random s).1 = (s * 9301 + 49297) % 233280 :=
    Int.tmod_eq_emod hx (by norm_num)
  refine ⟨he, ?_, ?_⟩
  · rw [he]
    exact Int.emod_nonneg _ (by norm_num)
  · rw [he]
    exact Int.emod_lt_of_pos _ (by norm_num)

lemma RNG.random_val_eq (s : ℤ) :
    (RNG.random s).2 = (((RNG.random s).1 : ℤ) : ℚ) / 233280 := by
  show mkRat _ 233280 = _
  rw [Rat.mkRat_eq_div]
  norm_num
  rfl

lemma RNG.random_val_bounds (s : ℤ) (hs : 0 ≤ s) :
    0 ≤ (RNG.random s).2 ∧ (RNG.random s).2 < 1 := by
  obtain ⟨-, h0, h1⟩ := RNG.random_seed_spec s hs
  rw [RNG.random_val_eq]
  constructor
  · positivity
  · rw [div_lt_one (by norm_num)]
    exact_mod_cast h1

lemma RNG.randomInt_bounds (s lo hi : ℤ) (hs : 0 ≤ s) (hlh : lo ≤ hi) :
    lo ≤ (RNG.randomInt s lo hi).2 ∧ (RNG.randomInt s lo hi).2 ≤ hi := by
  obtain ⟨hu0, hu1⟩ := RNG.random_val_bounds s hs
  obtain ⟨hj0, hj1⟩ := jsFloorMul_bounds (RNG.random s).2 (hi - lo + 1) hu0 hu1 (by omega)
  show lo ≤ jsFloorMul (RNG.random s).2 (hi - lo + 1) + lo ∧
    jsFloorMul (RNG.random s).2 (hi - lo + 1) + lo ≤ hi
  omega

lemma RNG.pick_mem {α : Type} (s : ℤ) (l : List α) (hs : 0 ≤ s) (hl : l ≠ []) :
    ∃ v, (RNG.pick s l).2 = some v ∧ v ∈ l := by
  have hlen : 1 ≤ (l.length : ℤ) := by
    have := List.length_pos.mpr hl
    omega
  obtain ⟨h0, h1⟩ := RNG.randomInt_bounds s 0 ((l.length : ℤ) - 1) hs (by omega)
  have hin : 0 ≤ (RNG.randomInt s 0 ((l.length : ℤ) - 1)).2 ∧
      (RNG.randomInt s 0 ((l.length : ℤ) - 1)).2.toNat < l.length := by
    constructor
    · exact h0
    · omega
  refine ⟨l.get ⟨(RNG.randomInt s 0 ((l.length : ℤ) - 1)).2.toNat, hin.2⟩, ?_, List.get_mem _ _ _⟩
  show dite _ _ _ = _
  rw [dif_pos hin]

/-! ## Claim C7: RNG float range and dice range -/

/-- Claim C7 counterexample: for the integer seed -6 the code's `random()` stores
the truncated remainder -6509 (not the nonnegative mathematical residue 226771)
and returns -6509/233280, which is negative, outside [0, 1). -/
theorem spec_C7_counterexample :
    (RNG.random (-6)).1 = -6509 ∧
    (RNG.random (-6)).1 ≠ ((-6 : ℤ) * 9301 + 49297) % 233280 ∧
    (RNG.random (-6)).2 < 0 := by
  refine ⟨by decide, by decide, by decide⟩

/-- Claim C7 (amended: restricted to nonnegative seeds; for a negative seed the JS
remainder is negative and the claim fails, see the counterexample): for every
nonnegative integer seed, `random()` replaces the seed with
`(seed * 9301 + 49297) mod 233280` and returns `newSeed / 233280`, a value in
[0, 1); `rollDice()` (legal states) stores an integer in [1, 6] in `diceResult`
and returns it. -/
theorem spec_C7_rng_float_range (s : ℤ) (hs : 0 ≤ s) :
    (RNG.random s).1 = (s * 9301 + 49297) % 233280 ∧
    (RNG.random s).2 = (((RNG.random s).1 : ℤ) : ℚ) / 233280 ∧
    (0 ≤ (RNG.random s).2 ∧ (RNG.random s).2 < 1) ∧
    (∀ m : Machine, (m.state = TurnState.TURN_START ∨ m.state = TurnState.ROLL_DICE) →
      m.gameState.rng = s →
      ∃ d : ℤ, 1 ≤ d ∧ d ≤ 6 ∧ m.rollDice.res = Except.ok d ∧
        m.rollDice.m.gameState.diceResult = some d) := by
  refine ⟨(RNG.random_seed_spec s hs).1, RNG.random_val_eq s, RNG.random_val_bounds s hs, ?_⟩
  intro m hst hrng
  have hcond : ¬(m.state ≠ TurnState.TURN_START ∧ m.state ≠ TurnState.ROLL_DICE) := by
    rcases hst with h | h <;> simp [h]
  obtain ⟨h1, h6⟩ := RNG.randomInt_bounds m.gameState.rng DICE_MIN DICE_MAX
    (hrng ▸ hs) (by norm_num [DICE_MIN, DICE_MAX])
  refine ⟨(RNG.randomInt m.gameState.rng DICE_MIN DICE_MAX).2, ?_, ?_, ?_, ?_⟩
  · exact h1
  · exact h6
  · show (Machine.rollDice m).res = _
    rw [Machine.rollDice, if_neg hcond]
  · show (Machine.rollDice m).m.gameState.diceResult = _
    rw [Machine.rollDice, if_neg hcond]
    rfl

theorem spec_C7_witness :
    (0 : ℤ) ≤ 42 ∧ 0 ≤ (RNG.random 42).2 ∧ (RNG.random 42).2 < 1 :=
  ⟨by decide, (spec_C7_rng_float_range 42 (by decide)).2.2.1⟩

/-! ## Claim C9: construction with an empty roster -/

/-- Claim C9 counterexample: `createGameState(42, [])` does not fail; it returns a
fully formed GameState (state TURN_START, turn 1, empty player list) — there is
no construction-time roster validation in the code. -/
theorem spec_C9_counterexample :
    (createGameState 42 []).currentState = TurnState.TURN_START ∧
    (createGameState 42 []).players = [] ∧
    (createGameState 42 []).turn = 1 :=
  ⟨rfl, rfl, rfl⟩

/-- Claim C9 (amended: the code performs no roster validation): for every seed,
`createGameState(seed, [])` returns a normal GameState with an empty player
list, initial indices and null turn fields, rather than raising a configuration
error. -/
theorem spec_C9_no_validation (seed : ℤ) :
    (createGameState seed []).players = [] ∧
    (createGameState seed []).currentPlayerIndex = 0 ∧
    (createGameState seed []).turn = 1 ∧
    (createGameState seed []).currentState = TurnState.TURN_START ∧
    (createGameState seed []).diceResult = none ∧
    (createGameState seed []).pendingPoints = none ∧
    (createGameState seed []).minigameScore = none :=
  ⟨rfl, rfl, rfl, rfl, rfl, rfl, rfl⟩

/-! ## The Fisher-Yates swap is a permutation -/

lemma list_set_get_self {α : Type} (l : List α) (i : ℕ) (h : i < l.length) :
    l.set i (l.get ⟨i, h⟩) = l := by
  induction l generalizing i with
  | nil => cases h
  | cons a t ih =>
    cases i with
    | zero => rfl
    | succ n =>
      show a :: t.set n (t.get ⟨n, _⟩) = a :: t
      rw [ih n (by simpa using h)]

lemma perm_get_cons_set {α : Type} (t : List α) (k : ℕ) (hk : k < t.length) (a : α) :
    (t.get ⟨k, hk⟩ :: t.set k a).Perm (a :: t) := by
  induction t generalizing k with
  | nil => cases hk
  | cons b t2 ih =>
    cases k with
    | zero => exact List.Perm.swap a b t2
    | succ n =>
      show (t2.get ⟨n, _⟩ :: b :: t2.set n a).Perm (a :: b :: t2)
      exact ((List.Perm.swap b _ _).trans
        ((ih n (by simpa using hk)).cons b)).trans (List.Perm.swap a b t2)

lemma perm_set_set_lt {α : Type} (l : List α) (i j : ℕ) (hij : i < j)
    (hi : i < l.length) (hj : j < l.length) :
    ((l.set i (l.get ⟨j, hj⟩)).set j (l.get ⟨i, hi⟩)).Perm l := by
  induction l generalizing i j with
  | nil => cases hj
  | cons a t ih =>
    cases i with
    | zero =>
      cases j with
      | zero => omega
      | succ n =>
        show (t.get ⟨n, _⟩ :: t.set n a).Perm (a :: t)
        exact perm_get_cons_set t n (by simpa using hj) a
    | succ m =>
      cases j with
      | zero => omega
      | succ n =>
        show (a :: (t.set m (t.get ⟨n, _⟩)).set n (t.get ⟨m, _⟩)).Perm (a :: t)
        exact (ih m n (by omega) (by simpa using hi) (by simpa using hj)).cons a

/-- The JS destructuring swap on list positions `i` and `j` permutes the list. -/
lemma perm_set_set {α : Type} (l : List α) (i j : ℕ)
    (hi : i < l.length) (hj : j < l.length) :
    ((l.set i (l.get ⟨j, hj⟩)).set j (l.get ⟨i, hi⟩)).Perm l := by
  rcases Nat.lt_trichotomy i j with h | h | h
  · exact perm_set_set_lt l i j h hi hj
  · subst h
    rw [List.set_set, list_set_get_self]
  · rw [List.set_comm _ _ _ (by omega)]
    exact perm_set_set_lt l j i h hj hi

/-! ## In-range reads and writes on a JSArray -/

lemma JSArray.read_in {α : Type} (a : JSArray α) (i : ℤ)
    (h : 0 ≤ i ∧ i.toNat < a.elems.length) :
    a.read i = a.elems.get ⟨i.toNat, h.2⟩ := by
  rw [JSArray.read, dif_pos h]

lemma JSArray.write_in {α : Type} (a : JSArray α) (i : ℤ) (v : Option α)
    (h : 0 ≤ i ∧ i.toNat < a.elems.length) :
    a.write i v = ⟨a.elems.set i.toNat v, a.props⟩ := by
  rw [JSArray.write, if_pos h]

/-! ## Shuffle invariants for nonnegative seeds -/

lemma RNG.shuffleStep_perm {α : Type} (st : ℤ × JSArray α) (i : ℕ)
    (hs : 0 ≤ st.1) (hi : i < st.2.elems.length) :
    0 ≤ (RNG.shuffleStep st i).1 ∧
    (RNG.shuffleStep st i).2.elems.Perm st.2.elems := by
  obtain ⟨hu0, hu1⟩ := RNG.random_val_bounds st.1 hs
  obtain ⟨hj0, hj1⟩ := jsFloorMul_bounds (RNG.random st.1).2 ((i : ℤ) + 1) hu0 hu1 (by omega)
  set j : ℤ := jsFloorMul (RNG.random st.1).2 ((i : ℤ) + 1) with hjdef
  have hjr : 0 ≤ j ∧ j.toNat < st.2.elems.length := by omega
  have hir : 0 ≤ (i : ℤ) ∧ (i : ℤ).toNat < st.2.elems.length := by omega
  constructor
  · exact (RNG.random_seed_spec st.1 hs).2.1
  · show ((st.2.write (i : ℤ) (st.2.read j)).write j (st.2.read (i : ℤ))).elems.Perm _
    rw [JSArray.read_in st.2 j hjr, JSArray.read_in st.2 (i : ℤ) hir,
      JSArray.write_in st.2 (i : ℤ) _ hir]
    rw [JSArray.write_in _ j _ (by simpa using hjr)]
    show ((st.2.elems.set (i : ℤ).toNat _).set j.toNat _).Perm st.2.elems
    exact perm_set_set st.2.elems (i : ℤ).toNat j.toNat hir.2 hjr.2

lemma RNG.shuffleGo_perm {α : Type} (n : ℕ) (st : ℤ × JSArray α)
    (hs : 0 ≤ st.1) (hn : n < st.2.elems.length) :
    0 ≤ (RNG.shuffleGo n st).1 ∧
    (RNG.shuffleGo n st).2.elems.Perm st.2.elems := by
  induction n generalizing st with
  | zero => exact ⟨hs, List.Perm.refl _⟩
  | succ n ih =>
    obtain ⟨hs1, hp1⟩ := RNG.shuffleStep_perm st (n + 1) hs hn
    have hn1 : n < (RNG.shuffleStep st (n + 1)).2.elems.length := by
      rw [hp1.length_eq]
      omega
    obtain ⟨hs2, hp2⟩ := ih (RNG.shuffleStep st (n + 1)) hs1 hn1
    exact ⟨hs2, hp2.trans hp1⟩

lemma RNG.shuffle_perm {α : Type} (seed : ℤ) (l : List (Option α)) (hs : 0 ≤ seed) :
    (RNG.shuffle seed l).2.Perm l := by
  match l with
  | [] => exact List.Perm.refl _
  | a :: t =>
    have h : (a :: t).length - 1 < (a :: t).length := by simp
    exact (RNG.shuffleGo_perm ((a :: t).length - 1) (seed, ⟨a :: t, []⟩) hs h).2

lemma map_range_getD {β : Type} (l : List β) (d : β) :
    (List.range l.length).map (fun i => l.getD i d) = l := by
  apply List.ext_getElem
  · simp
  · intro i h1 h2
    simp only [List.getElem_map, List.getElem_range]
    rw [List.getD_eq_getElem l d h2]

/-! ## Claim C2: tile distribution -/

lemma countO_perm (l1 l2 : List (Option TileType)) (h : l1.Perm l2) (t : Option TileType) :
    countO l1 t = countO l2 t :=
  (h.filter (fun x => decide (x = t))).length_eq

/-- Claim C2 counterexample: for the (negative) seed -6 the generated track still
has 50 entries but only 10 green, 3 blue, and 25 `undefined` tiles — the
distribution invariant fails because the JS shuffle writes at negative indices.
The claim as stated quantifies over every seed. -/
theorem spec_C2_counterexample :
    (generateTiles (-6)).2.length = 50 ∧
    countO ((generateTiles (-6)).2.map Tile.type) (some TileType.green) = 10 ∧
    countO ((generateTiles (-6)).2.map Tile.type) (some TileType.blue) = 3 ∧
    countO ((generateTiles (-6)).2.map Tile.type) none = 25 := by
  decide

/-- Claim C2 (amended: restricted to nonnegative seeds; a negative seed corrupts
the shuffle, see the counterexample): for every nonnegative seed, the track
produced by `generateTiles` has length exactly 50, contains exactly 20 GREEN,
15 RED, 10 YELLOW and 5 BLUE tiles (and no undefined ones), and assigns
sequential indices 0..49; only the ordering varies with the seed. -/
theorem spec_C2_tile_distribution (seed : ℤ) (hs : 0 ≤ seed) :
    (generateTiles seed).2.length = 50 ∧
    countO ((generateTiles seed).2.map Tile.type) (some TileType.green) = 20 ∧
    countO ((generateTiles seed).2.map Tile.type) (some TileType.red) = 15 ∧
    countO ((generateTiles seed).2.map Tile.type) (some TileType.yellow) = 10 ∧
    countO ((generateTiles seed).2.map Tile.type) (some TileType.blue) = 5 ∧
    countO ((generateTiles seed).2.map Tile.type) none = 0 ∧
    ∀ i (h : i < (generateTiles seed).2.length),
      ((generateTiles seed).2.get ⟨i, h⟩).index = i := by
  have hperm := RNG.shuffle_perm seed tileTypeBag hs
  have hlen : (RNG.shuffle seed tileTypeBag).2.length = 50 := by
    rw [hperm.length_eq]
    decide
  have htypes : (generateTiles seed).2.map Tile.type = (RNG.shuffle seed tileTypeBag).2 := by
    show ((List.range TILE_COUNT).map
      (fun i => (⟨(RNG.shuffle seed tileTypeBag).2.getD i none, i⟩ : Tile))).map Tile.type = _
    rw [List.map_map]
    show (List.range TILE_COUNT).map
      (fun i => (RNG.shuffle seed tileTypeBag).2.getD i none) = _
    have h50 : TILE_COUNT = (RNG.shuffle seed tileTypeBag).2.length := by
      rw [hlen]
      rfl
    rw [h50, map_range_getD]
  refine ⟨?_, ?_, ?_, ?_, ?_, ?_, ?_⟩
  · show ((List.range TILE_COUNT).map _).length = 50
    rw [List.length_map, List.length_range]
    rfl
  · rw [htypes, countO_perm _ _ hperm]
    decide
  · rw [htypes, countO_perm _ _ hperm]
    decide
  · rw [htypes, countO_perm _ _ hperm]
    decide
  · rw [htypes, countO_perm _ _ hperm]
    decide
  · rw [htypes, countO_perm _ _ hperm]
    decide
  · intro i h
    show (((List.range TILE_COUNT).map
      (fun i => (⟨(RNG.shuffle seed tileTypeBag).2.getD i none, i⟩ : Tile))).get ⟨i, h⟩).index = i
    simp [List.get_eq_getElem, List.getElem_map, List.getElem_range]

theorem spec_C2_witness :
    (generateTiles 42).2.length = 50 ∧
    countO ((generateTiles 42).2.map Tile.type) (some TileType.green) = 20 :=
  ⟨(spec_C2_tile_distribution 42 (by decide)).1,
    (spec_C2_tile_distribution 42 (by decide)).2.1⟩

/-! ## Claim C8: shuffle permutation -/

/-- Claim C8 counterexample: with seed -6 (the claim quantifies over every seed),
shuffling the two-element array `[0, 1]` returns `[0, undefined]`, which is not a
permutation of the input: the JS swap wrote element 1 to index -1. -/
theorem spec_C8_counterexample :
    (RNG.shuffle (-6) [some (0 : ℤ), some 1]).2 = [some 0, none] ∧
    ¬ (RNG.shuffle (-6) [some (0 : ℤ), some 1]).2.Perm [some 0, some 1] := by
  constructor
  · decide
  · intro h
    have hc := h.count_eq (some 1)
    revert hc
    decide

/-- Claim C8 (amended: restricted to nonnegative seeds, see the counterexample;
the non-mutation half holds by the source copying the input with a spread before
shuffling, which the pure embedding reflects): for every nonnegative seed and
every input array, `RNG.shuffle` returns a permutation of the input — same
length and same multiset of elements. -/
theorem spec_C8_shuffle_permutation {α : Type} (seed : ℤ) (hs : 0 ≤ seed)
    (l : List (Option α)) :
    (RNG.shuffle seed l).2.Perm l ∧
    (RNG.shuffle seed l).2.length = l.length :=
  ⟨RNG.shuffle_perm seed l hs, (RNG.shuffle_perm seed l hs).length_eq⟩

theorem spec_C8_witness :
    (RNG.shuffle 7 [some (1 : ℤ), some 2, some 3]).2.Perm [some 1, some 2, some 3] :=
  (spec_C8_shuffle_permutation 7 (by decide) [some 1, some 2, some 3]).1

/-! ## Claim C1: determinism -/

/-- Claim C1: for any fixed integer seed, fixed roster and fixed sequence of
TurnMachine operation calls, two independent runs — each starting from
`createGameState(seed, roster)` — produce identical dice-roll values, an
identical tile layout, and identical final per-player scores and positions.
In the embedding every run is the value of `runObservables`, a pure function of
the seed, roster and operation list, so the two runs coincide definitionally;
the machine consults no other source of nondeterminism. -/
theorem spec_C1_determinism (seed : ℤ) (roster : List Player) (ops : List GameOp) :
    runObservables ops (mkTurnMachine (createGameState seed roster)) =
      runObservables ops (mkTurnMachine (createGameState seed roster)) := rfl

/-! ## Claim C4: state-transition legality -/

/-- Claim C4: every TurnMachine command invoked from a state that does not permit
it throws (never silently no-ops): rollDice outside TURN_START/ROLL_DICE,
movePawn and transitionToResolveTile outside MOVE, movePawn with a null dice
result, resolveTile outside RESOLVE_TILE (in particular immediately after
construction), completeMinigame outside OPTIONAL_MINIGAME, endTurn outside
END_TURN. -/
theorem spec_C4_transition_legality :
    (∀ m : Machine, m.state ≠ TurnState.TURN_START → m.state ≠ TurnState.ROLL_DICE →
      m.rollDice.res = Except.error ("Cannot roll dice in state: " ++ m.state.name)) ∧
    (∀ (m : Machine) (cb : Bool), m.state ≠ TurnState.MOVE →
      (m.movePawn cb).res = Except.error ("Cannot move in state: " ++ m.state.name)) ∧
    (∀ (m : Machine) (cb : Bool), m.state = TurnState.MOVE →
      m.gameState.diceResult = none →
      (m.movePawn cb).res = Except.error "Cannot move without dice result") ∧
    (∀ m : Machine, m.state ≠ TurnState.MOVE →
      m.transitionToResolveTile.res =
        Except.error ("Cannot transition to RESOLVE_TILE from state: " ++ m.state.name)) ∧
    (∀ m : Machine, m.state ≠ TurnState.RESOLVE_TILE →
      m.resolveTile.res = Except.error ("Cannot resolve tile in state: " ++ m.state.name)) ∧
    (∀ (seed : ℤ) (roster : List Player),
      (mkTurnMachine (createGameState seed roster)).resolveTile.res =
        Except.error ("Cannot resolve tile in state: TURN_START")) ∧
    (∀ (m : Machine) (c : Bool), m.state ≠ TurnState.OPTIONAL_MINIGAME →
      (m.completeMinigame c).res =
        Except.error ("Cannot complete minigame in state: " ++ m.state.name)) ∧
    (∀ m : Machine, m.state ≠ TurnState.END_TURN →
      m.endTurn.res = Except.error ("Cannot end turn in state: " ++ m.state.name)) := by
  refine ⟨?_, ?_, ?_, ?_, ?_, ?_, ?_, ?_⟩
  · intro m h1 h2
    unfold Machine.rollDice
    rw [if_pos ⟨h1, h2⟩]
  · intro m cb h
    unfold Machine.movePawn
    rw [if_pos h]
  · intro m cb hstate hdice
    unfold Machine.movePawn
    rw [if_neg (by simp [hstate]), hdice]
  · intro m h
    unfold Machine.transitionToResolveTile
    rw [if_pos h]
  · intro m h
    unfold Machine.resolveTile
    rw [if_pos h]
  · intro seed roster
    unfold Machine.resolveTile
    rw [if_pos (show (mkTurnMachine (createGameState seed roster)).state ≠
      TurnState.RESOLVE_TILE from fun h => nomatch h)]
    rfl
  · intro m c h
    unfold Machine.completeMinigame
    rw [if_pos h]
  · intro m h
    unfold Machine.endTurn
    rw [if_pos h]

theorem spec_C4_witness :
    c3MgMachine.rollDice.res =
      Except.error ("Cannot roll dice in state: " ++ c3MgMachine.state.name) :=
  spec_C4_transition_legality.1 c3MgMachine (by decide) (by decide)

/-! ## Claim C10: atomicity on illegal calls -/

/-- Claim C10 (implicit): whenever a TurnMachine command throws because its state
or dice-result precondition check fails, the entire machine (its state field and
the whole GameState, hence every player, the tiles and the RNG seed) is left
exactly as it was before the call, and the state-change callback is not
invoked. -/
theorem spec_C10_atomic_illegal_calls :
    (∀ m : Machine, m.state ≠ TurnState.TURN_START → m.state ≠ TurnState.ROLL_DICE →
      m.rollDice.m = m ∧ m.rollDice.notes = [] ∧
        ∃ e, m.rollDice.res = Except.error e) ∧
    (∀ (m : Machine) (cb : Bool), m.state ≠ TurnState.MOVE →
      (m.movePawn cb).m = m ∧ (m.movePawn cb).notes = [] ∧
        ∃ e, (m.movePawn cb).res = Except.error e) ∧
    (∀ (m : Machine) (cb : Bool), m.state = TurnState.MOVE →
      m.gameState.diceResult = none →
      (m.movePawn cb).m = m ∧ (m.movePawn cb).notes = [] ∧
        ∃ e, (m.movePawn cb).res = Except.error e) ∧
    (∀ m : Machine, m.state ≠ TurnState.MOVE →
      m.transitionToResolveTile.m = m ∧ m.transitionToResolveTile.notes = [] ∧
        ∃ e, m.transitionToResolveTile.res = Except.error e) ∧
    (∀ m : Machine, m.state ≠ TurnState.RESOLVE_TILE →
      m.resolveTile.m = m ∧ m.resolveTile.notes = [] ∧
        ∃ e, m.resolveTile.res = Except.error e) ∧
    (∀ (m : Machine) (c : Bool), m.state ≠ TurnState.OPTIONAL_MINIGAME →
      (m.completeMinigame c).m = m ∧ (m.completeMinigame c).notes = [] ∧
        ∃ e, (m.completeMinigame c).res = Except.error e) ∧
    (∀ m : Machine, m.state ≠ TurnState.END_TURN →
      m.endTurn.m = m ∧ m.endTurn.notes = [] ∧
        ∃ e, m.endTurn.res = Except.error e) := by
  refine ⟨?_, ?_, ?_, ?_, ?_, ?_, ?_⟩
  · intro m h1 h2
    unfold Machine.rollDice
    rw [if_pos ⟨h1, h2⟩]
    exact ⟨rfl, rfl, _, rfl⟩
  · intro m cb h
    unfold Machine.movePawn
    rw [if_pos h]
    exact ⟨rfl, rfl, _, rfl⟩
  · intro m cb hstate hdice
    unfold Machine.movePawn
    rw [if_neg (by simp [hstate]), hdice]
    exact ⟨rfl, rfl, _, rfl⟩
  · intro m h
    unfold Machine.transitionToResolveTile
    rw [if_pos h]
    exact ⟨rfl, rfl, _, rfl⟩
  · intro m h
    unfold Machine.resolveTile
    rw [if_pos h]
    exact ⟨rfl, rfl, _, rfl⟩
  · intro m c h
    unfold Machine.completeMinigame
    rw [if_pos h]
    exact ⟨rfl, rfl, _, rfl⟩
  · intro m h
    unfold Machine.endTurn
    rw [if_pos h]
    exact ⟨rfl, rfl, _, rfl⟩

theorem spec_C10_witness :
    (mkTurnMachine (createGameState 42 sampleRoster)).endTurn.m =
      mkTurnMachine (createGameState 42 sampleRoster) ∧
    (mkTurnMachine (createGameState 42 sampleRoster)).endTurn.notes = [] :=
  ⟨(spec_C10_atomic_illegal_calls.2.2.2.2.2.2 _ (by decide)).1,
    (spec_C10_atomic_illegal_calls.2.2.2.2.2.2 _ (by decide)).2.1⟩

/-! ## Claim C5: pawn movement -/

/-- Claim C5 counterexample (the claim as stated is reachable-false): starting
from `createGameState(-100, [p])` with the player on tile 0 (inside [0, 49]),
`rollDice()` succeeds and stores the non-null dice result -1 (the negative seed
makes the LCG draw negative); `movePawn()` then sets the position to
`(0 + -1) % 50 = -1` under the JS remainder, which is outside [0, 49] and is not
the mathematical modulus 49. -/
theorem spec_C5_counterexample :
    (mkTurnMachine (createGameState (-100) [samplePlayer 1 "P"])).gameState.players.map
      Player.pawnPosition = [0] ∧
    (mkTurnMachine (createGameState (-100) [samplePlayer 1 "P"])).rollDice.m.state =
      TurnState.MOVE ∧
    (mkTurnMachine
      (createGameState (-100) [samplePlayer 1 "P"])).rollDice.m.gameState.diceResult =
      some (-1) ∧
    ((mkTurnMachine
      (createGameState (-100) [samplePlayer 1 "P"])).rollDice.m.movePawn
        false).m.gameState.players.map Player.pawnPosition = [-1] ∧
    ((samplePlayer 1 "P").pawnPosition + -1) % 50 = 49 := by
  decide

/-- Claim C5 (amended: the dice result must additionally be nonnegative — with a
negative RNG seed `rollDice` can store a negative dice result and the position
then leaves [0, 49], see the counterexample): when movePawn is called from MOVE
with a non-null, nonnegative dice result `steps` and the current player at
position p in [0, 49], the position is set synchronously to `(p + steps) % 50`,
always in [0, 49]; the machine transitions to RESOLVE_TILE regardless of
whether the callback is provided, and when provided, the callback is invoked
with the new position. -/
theorem spec_C5_move_wraparound (m : Machine) (cb : Bool) (steps : ℤ) (player : Player)
    (hstate : m.state = TurnState.MOVE)
    (hdice : m.gameState.diceResult = some steps)
    (hsteps : 0 ≤ steps)
    (hplayer : m.getCurrentPlayer = some player)
    (hpos : 0 ≤ player.pawnPosition ∧ player.pawnPosition ≤ 49) :
    ∃ newPos : ℤ,
      newPos = (player.pawnPosition + steps) % 50 ∧
      0 ≤ newPos ∧ newPos ≤ 49 ∧
      (m.movePawn cb).m.state = TurnState.RESOLVE_TILE ∧
      (m.movePawn cb).m.gameState.currentState = TurnState.RESOLVE_TILE ∧
      (m.movePawn cb).m.gameState.players =
        m.gameState.players.set m.gameState.currentPlayerIndex.toNat
          { player with pawnPosition := newPos } ∧
      (m.movePawn cb).m = (m.movePawn true).m ∧
      (m.movePawn cb).notes = [TurnState.RESOLVE_TILE] ∧
      (m.movePawn cb).res = Except.ok (if cb then some newPos else none) := by
  have htm : Int.tmod (player.pawnPosition + steps) 50 =
      (player.pawnPosition + steps) % 50 :=
    Int.tmod_eq_emod (by omega) (by norm_num)
  refine ⟨Int.tmod (player.pawnPosition + steps) 50, htm, ?_, ?_, ?_, ?_, ?_, ?_, ?_, ?_⟩
  · rw [htm]
    exact Int.emod_nonneg _ (by norm_num)
  · rw [htm]
    have := Int.emod_lt_of_pos (player.pawnPosition + steps) (show (0 : ℤ) < 50 by norm_num)
    omega
  all_goals
    have hc : ¬(m.state ≠ TurnState.MOVE) := by simp [hstate]
    unfold Machine.movePawn
    simp only [if_neg hc, hdice, hplayer]
  all_goals rfl

theorem spec_C5_witness :
    (c5WitnessMachine.movePawn false).m.state = TurnState.RESOLVE_TILE ∧
    (c5WitnessMachine.movePawn false).notes = [TurnState.RESOLVE_TILE] := by
  obtain ⟨p, -, -, -, h4, -, -, -, h8, -⟩ :=
    spec_C5_move_wraparound c5WitnessMachine false 3 (samplePlayer 1 "Player 1")
      (by decide) (by decide) (by decide) (by decide) (by decide)
  exact ⟨h4, h8⟩

/-! ## Claim C3: tile resolution and scoring -/

/-- Claim C3: from RESOLVE_TILE, `resolveTile()` first clears pendingPoints; a
GREEN tile stores +3 in pendingPoints and adds +3 to the current player's
points, a RED tile stores and adds -3, a YELLOW tile stores and adds the value
drawn by `RNG.pick` from {+5, +2, -2, -5} consuming exactly one RNG draw (the
drawn value lies in that set whenever the RNG seed is nonnegative), in each
case transitioning to END_TURN; a BLUE tile applies no delta (pendingPoints
stays null, players untouched) and transitions to OPTIONAL_MINIGAME; a
subsequent `completeMinigame(true)` sets pendingPoints to 10 and adds 10 to the
player's points, and `completeMinigame(false)` sets pendingPoints to 0 and adds
0, both transitioning to END_TURN. -/
theorem spec_C3_tile_resolution :
    (∀ (m : Machine) (player : Player) (tile : Tile),
      m.state = TurnState.RESOLVE_TILE →
      m.getCurrentPlayer = some player →
      m.tileAt player.pawnPosition = some tile →
      (tile.type = some TileType.green →
        m.resolveTile.m.gameState.pendingPoints = some TILE_REWARDS_GREEN ∧
        m.resolveTile.m.gameState.players =
          m.gameState.players.set m.gameState.currentPlayerIndex.toNat
            { player with points := jsAdd player.points (some TILE_REWARDS_GREEN) } ∧
        m.resolveTile.m.state = TurnState.END_TURN ∧
        m.resolveTile.m.gameState.rng = m.gameState.rng ∧
        m.resolveTile.res = Except.ok ()) ∧
      (tile.type = some TileType.red →
        m.resolveTile.m.gameState.pendingPoints = some TILE_REWARDS_RED ∧
        m.resolveTile.m.gameState.players =
          m.gameState.players.set m.gameState.currentPlayerIndex.toNat
            { player with points := jsAdd player.points (some TILE_REWARDS_RED) } ∧
        m.resolveTile.m.state = TurnState.END_TURN ∧
        m.resolveTile.m.gameState.rng = m.gameState.rng ∧
        m.resolveTile.res = Except.ok ()) ∧
      (tile.type = some TileType.yellow →
        m.resolveTile.m.gameState.pendingPoints =
          (getYellowTilePoints m.gameState.rng).2 ∧
        m.resolveTile.m.gameState.players =
          m.gameState.players.set m.gameState.currentPlayerIndex.toNat
            { player with
              points := jsAdd player.points (getYellowTilePoints m.gameState.rng).2 } ∧
        m.resolveTile.m.state = TurnState.END_TURN ∧
        m.resolveTile.m.gameState.rng = (RNG.random m.gameState.rng).1 ∧
        m.resolveTile.res = Except.ok () ∧
        (0 ≤ m.gameState.rng → ∃ v, (getYellowTilePoints m.gameState.rng).2 = some v ∧
          v ∈ TILE_REWARDS_YELLOW_OPTIONS)) ∧
      (tile.type = some TileType.blue →
        m.resolveTile.m.gameState.pendingPoints = none ∧
        m.resolveTile.m.gameState.players = m.gameState.players ∧
        m.resolveTile.m.state = TurnState.OPTIONAL_MINIGAME ∧
        m.resolveTile.m.gameState.rng = m.gameState.rng ∧
        m.resolveTile.res = Except.ok ())) ∧
    (∀ (m : Machine) (player : Player),
      m.state = TurnState.OPTIONAL_MINIGAME →
      m.getCurrentPlayer = some player →
      ((m.completeMinigame true).m.gameState.pendingPoints = some 10 ∧
        (m.completeMinigame true).m.gameState.minigameScore = some 1 ∧
        (m.completeMinigame true).m.gameState.players =
          m.gameState.players.set m.gameState.currentPlayerIndex.toNat
            { player with points := jsAdd player.points (some 10) } ∧
        (m.completeMinigame true).m.state = TurnState.END_TURN ∧
        (m.completeMinigame true).res = Except.ok ()) ∧
      ((m.completeMinigame false).m.gameState.pendingPoints = some 0 ∧
        (m.completeMinigame false).m.gameState.minigameScore = some 0 ∧
        (m.completeMinigame false).m.gameState.players =
          m.gameState.players.set m.gameState.currentPlayerIndex.toNat
            { player with points := jsAdd player.points (some 0) } ∧
        (m.completeMinigame false).m.state = TurnState.END_TURN ∧
        (m.completeMinigame false).res = Except.ok ())) := by
  constructor
  · intro m player tile hstate hplayer htile
    have hc : ¬(m.state ≠ TurnState.RESOLVE_TILE) := by simp [hstate]
    refine ⟨?_, ?_, ?_, ?_⟩ <;> intro htype
    all_goals
      unfold Machine.resolveTile
      simp only [if_neg hc, hplayer, htile, htype]
    all_goals
      and_intros <;> first
        | trivial
        | exact fun h0 =>
            RNG.pick_mem m.gameState.rng TILE_REWARDS_YELLOW_OPTIONS h0 (by decide)
  · intro m player hstate hplayer
    have hc : ¬(m.state ≠ TurnState.OPTIONAL_MINIGAME) := by simp [hstate]
    constructor
    all_goals
      unfold Machine.completeMinigame
      simp only [if_neg hc, hplayer]
    all_goals and_intros <;> trivial

theorem spec_C3_witness :
    c3Machine.resolveTile.m.state = TurnState.END_TURN ∧
    c3Machine.resolveTile.m.gameState.pendingPoints = some TILE_REWARDS_GREEN ∧
    (c3MgMachine.completeMinigame true).m.gameState.pendingPoints = some 10 := by
  have h1 := (spec_C3_tile_resolution.1 c3Machine (samplePlayer 1 "Player 1")
    ⟨some TileType.green, 0⟩ (by decide) (by decide) (by decide)).1 (by decide)
  have h2 := (spec_C3_tile_resolution.2 c3MgMachine (samplePlayer 1 "Player 1")
    (by decide) (by decide)).1
  exact ⟨h1.2.2.1, h1.1, h2.1⟩

/-! ## Claim C6: turn rollover and game end -/

/-- Claim C6: a successful `endTurn()` (legal from END_TURN, here for a nonempty
roster and a nonnegative player index, as in every reachable state) sets
currentPlayerIndex to (i+1) mod playerCount, increments the turn counter
exactly when the index wraps to 0, resets diceResult, pendingPoints and
minigameScore to null, and lands in GAME_END exactly when the new turn counter
exceeds MAX_TURNS (else TURN_START); concretely, with 2 players and max turns
12 (seed 42), the 24th completed endTurn() leaves the machine in GAME_END (the
23rd leaves TURN_START) and a subsequent startTurn() attempt stays in
GAME_END. -/
theorem spec_C6_turn_rollover :
    (∀ m : Machine, m.state = TurnState.END_TURN →
      0 < m.gameState.players.length →
      0 ≤ m.gameState.currentPlayerIndex →
      m.endTurn.res = Except.ok () ∧
      m.endTurn.m.gameState.currentPlayerIndex =
        (m.gameState.currentPlayerIndex + 1) % (m.gameState.players.length : ℤ) ∧
      m.endTurn.m.gameState.turn =
        (if (m.gameState.currentPlayerIndex + 1) % (m.gameState.players.length : ℤ) = 0
          then m.gameState.turn + 1 else m.gameState.turn) ∧
      m.endTurn.m.gameState.diceResult = none ∧
      m.endTurn.m.gameState.pendingPoints = none ∧
      m.endTurn.m.gameState.minigameScore = none ∧
      m.endTurn.m.state =
        (if (if (m.gameState.currentPlayerIndex + 1) % (m.gameState.players.length : ℤ) = 0
              then m.gameState.turn + 1 else m.gameState.turn) > MAX_TURNS
          then TurnState.GAME_END else TurnState.TURN_START)) ∧
    ((playTurnsE 23 sampleMachine).map Machine.state = some TurnState.TURN_START ∧
      (playTurnsE 24 sampleMachine).map Machine.state = some TurnState.GAME_END ∧
      (playTurnsE 24 sampleMachine).map (fun m => m.startTurn.m.state) =
        some TurnState.GAME_END) := by
  constructor
  · intro m hstate hn hidx
    have hc : ¬(m.state ≠ TurnState.END_TURN) := by simp [hstate]
    have htm : Int.tmod (m.gameState.currentPlayerIndex + 1)
        ((m.gameState.players.length : ℕ) : ℤ) =
        (m.gameState.currentPlayerIndex + 1) % ((m.gameState.players.length : ℕ) : ℤ) :=
      Int.tmod_eq_emod (by omega) (by positivity)
    unfold Machine.endTurn Machine.startTurn
    simp only [if_neg hc, htm, Machine.setState, Machine.withGS]
    refine ⟨?_, ?_, ?_, ?_, ?_, ?_, ?_⟩
    all_goals repeat split
    all_goals simp_all
    all_goals split <;> simp_all
  · refine ⟨by decide, by decide, by decide⟩

theorem spec_C6_witness :
    (sampleMachine.forceStateForTesting TurnState.END_TURN).endTurn.res = Except.ok () ∧
    (sampleMachine.forceStateForTesting
      TurnState.END_TURN).endTurn.m.gameState.diceResult = none := by
  have h := spec_C6_turn_rollover.1 (sampleMachine.forceStateForTesting TurnState.END_TURN)
    (by decide) (by decide) (by decide)
  exact ⟨h.1, h.2.2.2.1⟩
